import Mathlib

/-!
Verification of the XBoard front-end dashboard component
(`src/app/components/Dashboard.tsx`).

The component is a single-threaded, event-driven control loop: it holds
six display entities in local state, refetches them from a backend on a
15-second interval, triggers a guarded webhook-setup remediation when the
webhook integration reports inactive, and supports a manual refresh that
syncs before refetching.

Shallow embedding conventions:
* Each network request's outcome is supplied explicitly as an
  `Except ReqError α` value (the environment of a fetch cycle).
* `Promise.all` over the five mandatory requests rejects with the error of
  whichever failing request settles first; since settling order is timing
  nondeterminism, the embedding takes the settling ("winner") error as an
  explicit parameter, and theorems quantify over every winner belonging to
  the set of failing requests (`mandatoryErrors`).
* React state setters become functional record updates; `useRef` flags are
  ordinary state fields; `onLogout` invocations, issued HTTP requests and
  `setTimeout` scheduling are recorded in an event trace.
* Wall-clock time (`new Date()`, `setTimeout` delays) is a `Nat` of
  milliseconds passed in explicitly.
-/

/-- `GET /me` response shape (interface `UserInfo` in Dashboard.tsx). -/
structure UserInfo where
  email : String
  shop_domain : String
  status : String
  installed_at : String
deriving Repr, DecidableEq

/-- `GET /overview` response shape (interface `Overview`). All KPI fields
are backend-supplied strings. -/
structure Overview where
  total_customers : String
  total_orders : String
  total_revenue : String
  currency : String
deriving Repr, DecidableEq

/-- One point of the `GET /orders-by-date` series (interface `OrderByDate`). -/
structure OrderByDate where
  order_date : String
  order_count : String
  daily_revenue : String
deriving Repr, DecidableEq

/-- One row of the `GET /top-customers` ranking (interface `TopCustomer`). -/
structure TopCustomer where
  customer_email : String
  customer_name : String
  order_count : String
  total_spent : String
deriving Repr, DecidableEq

/-- One row of the `GET /recent-orders` table (interface `RecentOrder`). -/
structure RecentOrder where
  id : Nat
  shopify_order_id : String
  total_price : String
  currency : String
  created_at : String
deriving Repr, DecidableEq

/-- One webhook event (interface `WebhookEvent`). -/
structure WebhookEvent where
  id : Nat
  event_type : String
  shopify_id : String
  processed_at : String
deriving Repr, DecidableEq

/-- `GET /webhook-status` response shape (interface `WebhookStatus`). -/
structure WebhookStatus where
  webhooks_active : Bool
  last_webhook_event : Option String
  webhook_count : Nat
  events : List WebhookEvent
deriving Repr, DecidableEq

/-- Failure of one HTTP request, as seen by the component's catch blocks:
an axios error carrying an optional HTTP status (`err.response?.status`,
absent on e.g. a network error), or a non-axios error. -/
inductive ReqError where
  | axios (status : Option Nat)
  | other
deriving Repr, DecidableEq

/-- The check `status === 401 || status === 403` guarded by
`axios.isAxiosError(err)` in the catch blocks of `fetchAllData` and
`handleManualRefresh`. -/
def isAuthErr : ReqError → Bool
  | ReqError.axios (some s) => s == 401 || s == 403
  | _ => false

/-- The outcomes of the six concurrent requests issued by one
`fetchAllData` cycle (lines 122-129 of Dashboard.tsx). -/
structure FetchEnv where
  userRes : Except ReqError UserInfo
  overviewRes : Except ReqError Overview
  ordersDateRes : Except ReqError (List OrderByDate)
  topCustomersRes : Except ReqError (List TopCustomer)
  recentOrdersRes : Except ReqError (List RecentOrder)
  webhookRes : Except ReqError WebhookStatus

/-- The component's local state: the six display entities, the two UI
flags, the last-updated timestamp (`lastDashboardUpdate`, modelled as
milliseconds) and the remediation in-flight guard
(`webhookSetupAttempted.current`). -/
structure DashState where
  userInfo : Option UserInfo
  overview : Option Overview
  ordersByDate : List OrderByDate
  topCustomers : List TopCustomer
  recentOrders : List RecentOrder
  webhookStatus : Option WebhookStatus
  loading : Bool
  refreshing : Bool
  lastDashboardUpdate : Nat
  webhookSetupAttempted : Bool
deriving Repr, DecidableEq

/-- Observable effects of one operation, in program order: the six GETs of
a fetch cycle starting, an `onLogout()` invocation, the
`POST /auth/setup-webhooks` request, the `POST /sync` request, and a
`setTimeout` scheduling of the guard clear (delay in milliseconds). -/
inductive Event where
  | fetchStart
  | logout
  | postSetupWebhooks
  | postSync
  | scheduleGuardClear (delayMs : Nat)
deriving Repr, DecidableEq

/-- The error of a settled request, `none` when it succeeded. -/
def errOf {α : Type} : Except ReqError α → Option ReqError
  | Except.error e => some e
  | Except.ok _ => none

/-- Errors of the five mandatory requests of a cycle, in array order.
The `webhook-status` request is excluded: its rejection is consumed by the
inline `.catch(() => ({ data: null }))` and never reaches `Promise.all`. -/
def mandatoryErrors (env : FetchEnv) : List ReqError :=
  List.filterMap id
    [errOf env.userRes, errOf env.overviewRes, errOf env.ordersDateRes,
     errOf env.topCustomersRes, errOf env.recentOrdersRes]

/-- Result of one `fetchAllData` cycle: the post-state, the event trace,
and whether the cycle invoked `setupWebhooksAutomatically` (line 142). -/
structure CycleResult where
  state : DashState
  events : List Event
  remediationTriggered : Bool
deriving Repr, DecidableEq

/-- One `fetchAllData(silent)` cycle (lines 118-159 of Dashboard.tsx).
`winner` is the error with which `Promise.all` rejects when some mandatory
request fails (timing-nondeterministic, hence a parameter; meaningful only
when `mandatoryErrors env` is nonempty, and theorems constrain it to that
set). `now` is the wall clock read by `new Date()` on success.

Success path: all six entities are replaced (webhook status by
`env.webhookRes.toOption`, i.e. `null` on its own failure), the timestamp
is set to `now`, and remediation is triggered when the fetched webhook
status is non-null, reports `webhooks_active` false, and the in-flight
guard is clear. Failure path: the catch block logs, and calls `onLogout()`
exactly when the winning error is an axios error with status 401 or 403;
no state field is written. In both paths the `finally` clears `loading`
for non-silent calls. -/
def fetchAllData (silent : Bool) (env : FetchEnv) (winner : ReqError)
    (now : Nat) (s : DashState) : CycleResult :=
  let s0 := if silent then s else { s with loading := true }
  match env.userRes, env.overviewRes, env.ordersDateRes,
        env.topCustomersRes, env.recentOrdersRes with
  | Except.ok u, Except.ok ov, Except.ok od, Except.ok tc, Except.ok ro =>
      let wd : Option WebhookStatus := env.webhookRes.toOption
      let s1 := { s0 with
        userInfo := some u
        overview := some ov
        ordersByDate := od
        topCustomers := tc
        recentOrders := ro
        webhookStatus := wd
        lastDashboardUpdate := now }
      let trig : Bool :=
        match wd with
        | some w => !w.webhooks_active && !s1.webhookSetupAttempted
        | none => false
      let s2 := if silent then s1 else { s1 with loading := false }
      ⟨s2, [Event.fetchStart], trig⟩
  | _, _, _, _, _ =>
      let evs := Event.fetchStart ::
        (if isAuthErr winner then [Event.logout] else [])
      let s2 := if silent then s0 else { s0 with loading := false }
      ⟨s2, evs, false⟩

/-- A first sanity check that the success branch is reachable. -/
example :
    (fetchAllData true
      ⟨Except.ok ⟨"a", "b", "c", "d"⟩, Except.ok ⟨"1", "2", "3", "USD"⟩,
       Except.ok [], Except.ok [], Except.ok [],
       Except.error (ReqError.axios (some 500))⟩
      ReqError.other 7
      ⟨none, none, [], [], [], none, false, false, 0, false⟩).state.webhookStatus
    = none := by decide

/-- Result of one `setupWebhooksAutomatically` invocation: post-state and
event trace. -/
structure SetupResult where
  state : DashState
  events : List Event
deriving Repr, DecidableEq

/-- `setupWebhooksAutomatically` (lines 91-115 of Dashboard.tsx).
`postRes` is the outcome of `POST /auth/setup-webhooks`; `refetchEnv`,
`winner` and `now` feed the nested `fetchAllData(true)` of the success
path.

Guard: if `webhookSetupAttempted.current` is set, return immediately
(no request, no state change). Otherwise set the guard, issue the POST;
on success refetch all data silently and then clear the guard immediately;
on failure schedule (`setTimeout`) a guard clear after 30000 ms. (The
nested refetch cannot re-trigger remediation because the guard is still
set while it runs.) -/
def setupWebhooksAutomatically (postRes : Except ReqError Unit)
    (refetchEnv : FetchEnv) (winner : ReqError) (now : Nat)
    (s : DashState) : SetupResult :=
  if s.webhookSetupAttempted then ⟨s, []⟩
  else
    let s1 := { s with webhookSetupAttempted := true }
    match postRes with
    | Except.ok _ =>
        let r := fetchAllData true refetchEnv winner now s1
        ⟨{ r.state with webhookSetupAttempted := false },
         Event.postSetupWebhooks :: r.events⟩
    | Except.error _ =>
        ⟨s1, [Event.postSetupWebhooks, Event.scheduleGuardClear 30000]⟩

/-- The host's timer delivery for the cooldown: a pending
`setTimeout(() => webhookSetupAttempted.current = false, 30000)` callback
scheduled to run at absolute time `clearAt` has run by time `now` exactly
when `clearAt ≤ now`; running it clears the guard. -/
def applyGuardTimer (clearAt : Option Nat) (now : Nat)
    (s : DashState) : DashState :=
  match clearAt with
  | some t => if t ≤ now then { s with webhookSetupAttempted := false } else s
  | none => s

/-- `handleManualRefresh` (lines 187-207 of Dashboard.tsx). `syncRes` is
the outcome of `POST /sync`; `env`, `winner`, `now` feed the subsequent
`fetchAllData()` (non-silent), which only runs if the sync succeeded.
`fetchAllData` never throws (it swallows its own errors), so only sync
errors reach this function's catch block, which logs out on 401/403.
The `finally` clears `refreshing` in all cases. -/
def handleManualRefresh (syncRes : Except ReqError Unit) (env : FetchEnv)
    (winner : ReqError) (now : Nat) (s : DashState) :
    DashState × List Event :=
  let s1 := { s with refreshing := true }
  match syncRes with
  | Except.ok _ =>
      let r := fetchAllData false env winner now s1
      ({ r.state with refreshing := false }, Event.postSync :: r.events)
  | Except.error err =>
      let evs := Event.postSync ::
        (if isAuthErr err then [Event.logout] else [])
      ({ s1 with refreshing := false }, evs)

/-- The host environment's interval timers: `nextId` is the next fresh
timer id, `active` the ids of currently registered intervals, and `due`
the ids of interval callbacks whose fire time has passed but which have
not yet run. `clearInterval` cancels even an already-queued callback, so
it removes the id from `due` as well. -/
structure TimerSys where
  nextId : Nat
  active : List Nat
  due : List Nat
deriving Repr, DecidableEq

/-- `setInterval(...)`: registers a fresh interval id and returns it. -/
def setIntervalSys (sys : TimerSys) : TimerSys × Nat :=
  ({ sys with nextId := sys.nextId + 1, active := sys.active ++ [sys.nextId] },
   sys.nextId)

/-- `clearInterval(id)`: deregisters the interval and discards any queued
not-yet-run callback of it. -/
def clearIntervalSys (sys : TimerSys) (id : Nat) : TimerSys :=
  { sys with
    active := sys.active.filter (fun i => i ≠ id)
    due := sys.due.filter (fun i => i ≠ id) }

/-- Timer ids whose callbacks will still run a (silent) `fetchAllData`:
exactly the queued due callbacks of the system. -/
def timerFetches (sys : TimerSys) : List Nat :=
  sys.due

/-- The polling half of the component: the host timer system plus the
component's `pollingIntervalRef`. -/
structure PollState where
  sys : TimerSys
  pollingIntervalRef : Option Nat
deriving Repr, DecidableEq

/-- Lines 165-167 and 180-182 of Dashboard.tsx: clear the stored interval,
if any. -/
def clearPriorInterval (p : PollState) : PollState :=
  match p.pollingIntervalRef with
  | some id => { p with sys := clearIntervalSys p.sys id }
  | none => p

/-- The body of the polling `useEffect` (lines 163-177): clear any prior
interval, (perform the initial fetch,) then register a fresh 15-second
interval and store its id. -/
def initializeEffect (p : PollState) : PollState :=
  let p1 := clearPriorInterval p
  let r := setIntervalSys p1.sys
  ⟨r.1, some r.2⟩

/-- The `useEffect` cleanup function (lines 179-183): clear the stored
interval. -/
def teardownEffect (p : PollState) : PollState :=
  clearPriorInterval p

/-- Well-formedness of the timer system: every registered or queued id was
issued in the past (is below `nextId`). Holds of the empty system and is
preserved by `setIntervalSys` and `clearIntervalSys`. -/
def TimerSysWF (sys : TimerSys) : Prop :=
  (∀ i ∈ sys.active, i < sys.nextId) ∧ (∀ i ∈ sys.due, i < sys.nextId)

/-- JS character-class test used by the numeric-string parser. -/
def isDigitCh (c : Char) : Bool :=
  '0' ≤ c && c ≤ '9'

/-- Whitespace as stripped by JS `Number` before parsing. -/
def isSpaceCh (c : Char) : Bool :=
  c = ' ' || c = '\t' || c = '\n' || c = '\r'

/-- Strip leading and trailing whitespace from a character list. -/
def jsTrim (cs : List Char) : List Char :=
  ((cs.dropWhile isSpaceCh).reverse.dropWhile isSpaceCh).reverse

/-- Value of a list of decimal digit characters. -/
def digitsToNat (cs : List Char) : Nat :=
  cs.foldl (fun a c => a * 10 + (c.toNat - '0'.toNat)) 0

/-- An unsigned JS numeric literal body: `digits`, `digits.digits`,
`.digits` or `digits.` (at least one digit overall); anything else is
`NaN` (`none`). -/
def parseUnsigned (cs : List Char) : Option ℚ :=
  let intPart := cs.takeWhile isDigitCh
  let rest := cs.dropWhile isDigitCh
  match rest with
  | [] => if intPart.isEmpty then none else some (digitsToNat intPart : ℚ)
  | '.' :: frac =>
      if frac.all isDigitCh && !(intPart.isEmpty && frac.isEmpty) then
        some ((digitsToNat intPart : ℚ)
          + (digitsToNat frac : ℚ) / ((10 : ℚ) ^ frac.length))
      else none
  | _ => none

/-- JS `Number(s)` on the decimal strings this component receives: trims
whitespace, maps the empty string to `0`, accepts an optional sign, and
yields `none` for `NaN`. -/
def jsNumber (s : String) : Option ℚ :=
  match jsTrim s.toList with
  | [] => some 0
  | '-' :: rest => (parseUnsigned rest).map (fun q => -q)
  | '+' :: rest => parseUnsigned rest
  | cs => parseUnsigned cs

/-- JS `x > 0` where `x` may be `NaN` (any comparison with `NaN` is
false). -/
def jsGtZero : Option ℚ → Bool
  | some q => decide (0 < q)
  | none => false

/-- JS `Math.round` on a finite value: half-up rounding. -/
def jsRound (q : ℚ) : ℚ :=
  ((⌊q + 1/2⌋ : ℤ) : ℚ)

/-- The `avgOrderValue` computation (lines 217-219 of Dashboard.tsx):
`overview && Number(overview.total_orders) > 0 ?
Math.round(Number(overview.total_revenue) / Number(overview.total_orders))
: 0`. A `none` result is JS `NaN` (possible only when `total_revenue`
parses to `NaN` while `total_orders` is positive). -/
def avgOrderValue (ov : Option Overview) : Option ℚ :=
  match ov with
  | none => some 0
  | some o =>
      match jsNumber o.total_orders with
      | some n =>
          if 0 < n then
            match jsNumber o.total_revenue with
            | some r => some (jsRound (r / n))
            | none => none
          else some 0
      | none => some 0

example : avgOrderValue (some ⟨"5", "4", "1000", "USD"⟩) = some 250 := by
  simp +decide [avgOrderValue, jsNumber, jsTrim, parseUnsigned, digitsToNat,
    isDigitCh, isSpaceCh, List.dropWhile, List.takeWhile, List.foldl]
  norm_num [jsRound]

example : avgOrderValue (some ⟨"5", "0", "1000", "USD"⟩) = some 0 := by
  simp +decide [avgOrderValue, jsNumber, jsTrim, parseUnsigned, digitsToNat,
    isDigitCh, isSpaceCh, List.dropWhile, List.takeWhile, List.foldl]

/-- The component's initial state (the `useState` initializers of
Dashboard.tsx: all entities empty, `loading` true, `refreshing` false,
guard clear). -/
def initialState : DashState :=
  ⟨none, none, [], [], [], none, true, false, 0, false⟩

/-- Concrete account-info value used by witnesses. -/
def sampleUser : UserInfo :=
  ⟨"owner@shop.example", "shop.example", "active", "2024-01-01"⟩

/-- Concrete overview value used by witnesses. -/
def sampleOverview : Overview :=
  ⟨"5", "4", "1000", "USD"⟩

/-- Concrete webhook-status value used by witnesses. -/
def sampleWebhook : WebhookStatus :=
  ⟨true, none, 0, []⟩

/-- A cycle environment in which all six requests succeed. -/
def okEnv : FetchEnv :=
  ⟨Except.ok sampleUser, Except.ok sampleOverview, Except.ok [],
   Except.ok [], Except.ok [], Except.ok sampleWebhook⟩

/-- C1. Remediation is never in flight twice concurrently: if the
in-flight guard (`webhookSetupAttempted.current`) is already set, an
invocation of `setupWebhooksAutomatically` returns immediately as a
no-op — the state is unchanged and no event (in particular no
`POST /auth/setup-webhooks`) is issued. -/
theorem claim1_inflight_guard_noop (postRes : Except ReqError Unit)
    (env : FetchEnv) (winner : ReqError) (now : Nat) (s : DashState)
    (h : s.webhookSetupAttempted = true) :
    setupWebhooksAutomatically postRes env winner now s = ⟨s, []⟩ := by
  simp [setupWebhooksAutomatically, h]

/-- Witness for C1 at a concrete state with the guard set. -/
theorem claim1_inflight_guard_noop_witness :
    ({ initialState with webhookSetupAttempted := true } :
        DashState).webhookSetupAttempted = true ∧
    setupWebhooksAutomatically (Except.ok ()) okEnv ReqError.other 5
        { initialState with webhookSetupAttempted := true } =
      ⟨{ initialState with webhookSetupAttempted := true }, []⟩ :=
  ⟨rfl, claim1_inflight_guard_noop (Except.ok ()) okEnv ReqError.other 5
    { initialState with webhookSetupAttempted := true } rfl⟩

/-- C3. If the five mandatory requests succeed but the webhook-status
request fails, the cycle still succeeds: the five entities are replaced
with the fetched values, webhook status is set to `null`, the timestamp is
still recorded, and no logout occurs. -/
theorem claim3_webhook_failure_tolerated (silent : Bool) (env : FetchEnv)
    (winner : ReqError) (now : Nat) (s : DashState)
    (u : UserInfo) (ov : Overview) (od : List OrderByDate)
    (tc : List TopCustomer) (ro : List RecentOrder) (er : ReqError)
    (hu : env.userRes = Except.ok u)
    (hov : env.overviewRes = Except.ok ov)
    (hod : env.ordersDateRes = Except.ok od)
    (htc : env.topCustomersRes = Except.ok tc)
    (hro : env.recentOrdersRes = Except.ok ro)
    (hw : env.webhookRes = Except.error er) :
    ((fetchAllData silent env winner now s).state.userInfo = some u ∧
     (fetchAllData silent env winner now s).state.overview = some ov ∧
     (fetchAllData silent env winner now s).state.ordersByDate = od ∧
     (fetchAllData silent env winner now s).state.topCustomers = tc ∧
     (fetchAllData silent env winner now s).state.recentOrders = ro) ∧
    (fetchAllData silent env winner now s).state.webhookStatus = none ∧
    (fetchAllData silent env winner now s).state.lastDashboardUpdate = now ∧
    Event.logout ∉ (fetchAllData silent env winner now s).events := by
  cases silent <;>
    simp [fetchAllData, hu, hov, hod, htc, hro, hw, Except.toOption]

/-- Witness for C3: a concrete cycle whose webhook-status request fails
with a 500. -/
theorem claim3_webhook_failure_tolerated_witness :
    (⟨Except.ok sampleUser, Except.ok sampleOverview, Except.ok [],
      Except.ok [], Except.ok [],
      Except.error (ReqError.axios (some 500))⟩ : FetchEnv).webhookRes
      = Except.error (ReqError.axios (some 500)) ∧
    ((fetchAllData true
        ⟨Except.ok sampleUser, Except.ok sampleOverview, Except.ok [],
         Except.ok [], Except.ok [],
         Except.error (ReqError.axios (some 500))⟩
        ReqError.other 7 initialState).state.userInfo = some sampleUser ∧
     (fetchAllData true
        ⟨Except.ok sampleUser, Except.ok sampleOverview, Except.ok [],
         Except.ok [], Except.ok [],
         Except.error (ReqError.axios (some 500))⟩
        ReqError.other 7 initialState).state.overview = some sampleOverview ∧
     (fetchAllData true
        ⟨Except.ok sampleUser, Except.ok sampleOverview, Except.ok [],
         Except.ok [], Except.ok [],
         Except.error (ReqError.axios (some 500))⟩
        ReqError.other 7 initialState).state.ordersByDate = [] ∧
     (fetchAllData true
        ⟨Except.ok sampleUser, Except.ok sampleOverview, Except.ok [],
         Except.ok [], Except.ok [],
         Except.error (ReqError.axios (some 500))⟩
        ReqError.other 7 initialState).state.topCustomers = [] ∧
     (fetchAllData true
        ⟨Except.ok sampleUser, Except.ok sampleOverview, Except.ok [],
         Except.ok [], Except.ok [],
         Except.error (ReqError.axios (some 500))⟩
        ReqError.other 7 initialState).state.recentOrders = []) ∧
    (fetchAllData true
        ⟨Except.ok sampleUser, Except.ok sampleOverview, Except.ok [],
         Except.ok [], Except.ok [],
         Except.error (ReqError.axios (some 500))⟩
        ReqError.other 7 initialState).state.webhookStatus = none ∧
    (fetchAllData true
        ⟨Except.ok sampleUser, Except.ok sampleOverview, Except.ok [],
         Except.ok [], Except.ok [],
         Except.error (ReqError.axios (some 500))⟩
        ReqError.other 7 initialState).state.lastDashboardUpdate = 7 ∧
    Event.logout ∉ (fetchAllData true
        ⟨Except.ok sampleUser, Except.ok sampleOverview, Except.ok [],
         Except.ok [], Except.ok [],
         Except.error (ReqError.axios (some 500))⟩
        ReqError.other 7 initialState).events :=
  ⟨rfl, claim3_webhook_failure_tolerated true _ ReqError.other 7 initialState
    sampleUser sampleOverview [] [] [] (ReqError.axios (some 500))
    rfl rfl rfl rfl rfl rfl⟩

/-- C6. If all six requests succeed, all six display entities are
replaced with the fetched values in the same cycle (atomically, in this
sequential model: by one state transition) and the last-updated timestamp
is set to the current clock, strictly later than before (given that the
clock advanced since the previous update). -/
theorem claim6_full_success_atomic_update (silent : Bool) (env : FetchEnv)
    (winner : ReqError) (now : Nat) (s : DashState)
    (u : UserInfo) (ov : Overview) (od : List OrderByDate)
    (tc : List TopCustomer) (ro : List RecentOrder) (w : WebhookStatus)
    (hu : env.userRes = Except.ok u)
    (hov : env.overviewRes = Except.ok ov)
    (hod : env.ordersDateRes = Except.ok od)
    (htc : env.topCustomersRes = Except.ok tc)
    (hro : env.recentOrdersRes = Except.ok ro)
    (hw : env.webhookRes = Except.ok w)
    (hclock : s.lastDashboardUpdate < now) :
    ((fetchAllData silent env winner now s).state.userInfo = some u ∧
     (fetchAllData silent env winner now s).state.overview = some ov ∧
     (fetchAllData silent env winner now s).state.ordersByDate = od ∧
     (fetchAllData silent env winner now s).state.topCustomers = tc ∧
     (fetchAllData silent env winner now s).state.recentOrders = ro ∧
     (fetchAllData silent env winner now s).state.webhookStatus = some w) ∧
    (fetchAllData silent env winner now s).state.lastDashboardUpdate = now ∧
    s.lastDashboardUpdate
      < (fetchAllData silent env winner now s).state.lastDashboardUpdate := by
  cases silent <;>
    simp [fetchAllData, hu, hov, hod, htc, hro, hw, Except.toOption, hclock]

/-- Witness for C6: a concrete all-success cycle at clock 7 from the
initial state (previous timestamp 0). -/
theorem claim6_full_success_atomic_update_witness :
    okEnv.userRes = Except.ok sampleUser ∧
    initialState.lastDashboardUpdate < 7 ∧
    ((fetchAllData false okEnv ReqError.other 7 initialState).state.userInfo
        = some sampleUser ∧
     (fetchAllData false okEnv ReqError.other 7 initialState).state.overview
        = some sampleOverview ∧
     (fetchAllData false okEnv ReqError.other 7 initialState).state.ordersByDate
        = [] ∧
     (fetchAllData false okEnv ReqError.other 7 initialState).state.topCustomers
        = [] ∧
     (fetchAllData false okEnv ReqError.other 7 initialState).state.recentOrders
        = [] ∧
     (fetchAllData false okEnv ReqError.other 7 initialState).state.webhookStatus
        = some sampleWebhook) ∧
    (fetchAllData false okEnv ReqError.other 7
        initialState).state.lastDashboardUpdate = 7 ∧
    initialState.lastDashboardUpdate
      < (fetchAllData false okEnv ReqError.other 7
          initialState).state.lastDashboardUpdate :=
  ⟨rfl, by decide,
   claim6_full_success_atomic_update false okEnv ReqError.other 7 initialState
     sampleUser sampleOverview [] [] [] sampleWebhook
     rfl rfl rfl rfl rfl rfl (by decide)⟩

/-- C10. A fetch cycle triggers automatic remediation exactly when the
cycle succeeded, the webhook-status result is non-null and reports
`webhooks_active = false`, and no remediation attempt is in flight; in
particular a `null` webhook status (substituted after a webhook-status
failure) never triggers remediation. -/
theorem claim10_remediation_trigger_condition (silent : Bool)
    (env : FetchEnv) (winner : ReqError) (now : Nat) (s : DashState) :
    (fetchAllData silent env winner now s).remediationTriggered = true ↔
      (mandatoryErrors env = [] ∧
       ∃ w, env.webhookRes = Except.ok w ∧ w.webhooks_active = false ∧
         s.webhookSetupAttempted = false) := by
  rcases env with ⟨ru, rov, rod, rtc, rro, rw⟩
  rcases ru with e1 | v1 <;> rcases rov with e2 | v2 <;>
    rcases rod with e3 | v3 <;> rcases rtc with e4 | v4 <;>
    rcases rro with e5 | v5 <;> rcases rw with e6 | v6 <;>
    cases silent <;>
    simp [fetchAllData, mandatoryErrors, errOf, Except.toOption,
      Bool.and_eq_true, Bool.not_eq_true']


/-- C4. If some mandatory request fails and every failing mandatory
request fails with a non-authentication error (anything but an axios error
of HTTP status 401 or 403), then — whichever failing request's error
settles the combined fetch — no display entity and no last-updated
timestamp changes, and the logout callback is not invoked. -/
theorem claim4_nonauth_failure_preserves_state (silent : Bool)
    (env : FetchEnv) (winner : ReqError) (now : Nat) (s : DashState)
    (hall : ∀ e ∈ mandatoryErrors env, isAuthErr e = false)
    (hwin : winner ∈ mandatoryErrors env) :
    ((fetchAllData silent env winner now s).state.userInfo = s.userInfo ∧
     (fetchAllData silent env winner now s).state.overview = s.overview ∧
     (fetchAllData silent env winner now s).state.ordersByDate
        = s.ordersByDate ∧
     (fetchAllData silent env winner now s).state.topCustomers
        = s.topCustomers ∧
     (fetchAllData silent env winner now s).state.recentOrders
        = s.recentOrders ∧
     (fetchAllData silent env winner now s).state.webhookStatus
        = s.webhookStatus) ∧
    (fetchAllData silent env winner now s).state.lastDashboardUpdate
      = s.lastDashboardUpdate ∧
    Event.logout ∉ (fetchAllData silent env winner now s).events := by
  have hwa : isAuthErr winner = false := hall winner hwin
  rcases env with ⟨ru, rov, rod, rtc, rro, rw⟩
  rcases ru with e1 | v1 <;> rcases rov with e2 | v2 <;>
    rcases rod with e3 | v3 <;> rcases rtc with e4 | v4 <;>
    rcases rro with e5 | v5 <;> cases silent <;>
    simp_all [fetchAllData, mandatoryErrors, errOf]

/-- Witness for C4: a concrete cycle whose overview request fails with a
500 while everything else succeeds. -/
theorem claim4_nonauth_failure_preserves_state_witness :
    (∀ e ∈ mandatoryErrors
        ⟨Except.ok sampleUser, Except.error (ReqError.axios (some 500)),
         Except.ok [], Except.ok [], Except.ok [],
         Except.ok sampleWebhook⟩, isAuthErr e = false) ∧
    ReqError.axios (some 500) ∈ mandatoryErrors
        ⟨Except.ok sampleUser, Except.error (ReqError.axios (some 500)),
         Except.ok [], Except.ok [], Except.ok [],
         Except.ok sampleWebhook⟩ ∧
    ((fetchAllData true
        ⟨Except.ok sampleUser, Except.error (ReqError.axios (some 500)),
         Except.ok [], Except.ok [], Except.ok [],
         Except.ok sampleWebhook⟩
        (ReqError.axios (some 500)) 9 initialState).state.overview
      = initialState.overview ∧
     Event.logout ∉ (fetchAllData true
        ⟨Except.ok sampleUser, Except.error (ReqError.axios (some 500)),
         Except.ok [], Except.ok [], Except.ok [],
         Except.ok sampleWebhook⟩
        (ReqError.axios (some 500)) 9 initialState).events) := by
  refine ⟨by decide, by decide, ?_, ?_⟩
  · exact (claim4_nonauth_failure_preserves_state true _
      (ReqError.axios (some 500)) 9 initialState (by decide)
      (by decide)).1.2.1
  · exact (claim4_nonauth_failure_preserves_state true _
      (ReqError.axios (some 500)) 9 initialState (by decide)
      (by decide)).2.2

/-- A cycle environment in which the five mandatory requests succeed and
the webhook-status request fails with HTTP 401. -/
def webhook401Env : FetchEnv :=
  ⟨Except.ok sampleUser, Except.ok sampleOverview, Except.ok [],
   Except.ok [], Except.ok [], Except.error (ReqError.axios (some 401))⟩

/-- Counterexample to C5 as stated: in a cycle one of whose six requests
(the webhook-status request) fails with HTTP 401, the logout callback
fires zero times, not exactly once — the inline
`.catch(() => ({ data: null }))` swallows the authentication failure. -/
theorem claim5_counterexample :
    webhook401Env.webhookRes = Except.error (ReqError.axios (some 401)) ∧
    isAuthErr (ReqError.axios (some 401)) = true ∧
    List.count Event.logout
      (fetchAllData true webhook401Env ReqError.other 5 initialState).events
      = 0 :=
  ⟨rfl, rfl, by decide⟩

/-- C5 (amended). If a mandatory request fails and the error with which
the combined fetch settles carries HTTP status 401 or 403, the logout
callback fires exactly once during that cycle. (A 401/403 from the
webhook-status request alone is substituted by `null` and never triggers
logout.) -/
theorem claim5_auth_failure_logout_once (silent : Bool) (env : FetchEnv)
    (winner : ReqError) (now : Nat) (s : DashState)
    (hwin : winner ∈ mandatoryErrors env)
    (ha : isAuthErr winner = true) :
    List.count Event.logout
      (fetchAllData silent env winner now s).events = 1 := by
  rcases env with ⟨ru, rov, rod, rtc, rro, rw⟩
  rcases ru with e1 | v1 <;> rcases rov with e2 | v2 <;>
    rcases rod with e3 | v3 <;> rcases rtc with e4 | v4 <;>
    rcases rro with e5 | v5 <;> cases silent <;>
    simp_all [fetchAllData, mandatoryErrors, errOf]

/-- Witness for the amended C5: the account-info request fails with 401
and logout fires exactly once. -/
theorem claim5_auth_failure_logout_once_witness :
    ReqError.axios (some 401) ∈ mandatoryErrors
      ⟨Except.error (ReqError.axios (some 401)), Except.ok sampleOverview,
       Except.ok [], Except.ok [], Except.ok [], Except.ok sampleWebhook⟩ ∧
    isAuthErr (ReqError.axios (some 401)) = true ∧
    List.count Event.logout
      (fetchAllData true
        ⟨Except.error (ReqError.axios (some 401)), Except.ok sampleOverview,
         Except.ok [], Except.ok [], Except.ok [], Except.ok sampleWebhook⟩
        (ReqError.axios (some 401)) 5 initialState).events = 1 :=
  ⟨by decide, by decide,
   claim5_auth_failure_logout_once true _ (ReqError.axios (some 401)) 5
     initialState (by decide) (by decide)⟩

/-- C7. Manual refresh issues the `POST /sync` request as its first
observable action, strictly before any fetch cycle begins (a fetch begins
only if the sync completed successfully, and then only after it); and the
refreshing indicator is cleared in all cases before the operation
returns. -/
theorem claim7_manual_refresh_sync_then_fetch
    (syncRes : Except ReqError Unit) (env : FetchEnv) (winner : ReqError)
    (now : Nat) (s : DashState) :
    (∃ tl, (handleManualRefresh syncRes env winner now s).2
      = Event.postSync :: tl) ∧
    (handleManualRefresh syncRes env winner now s).1.refreshing = false ∧
    (∀ err, syncRes = Except.error err →
      Event.fetchStart ∉ (handleManualRefresh syncRes env winner now s).2) := by
  rcases syncRes with err | v
  · refine ⟨⟨_, rfl⟩, rfl, ?_⟩
    intro e _
    cases h : isAuthErr err <;> simp [handleManualRefresh, h]
  · exact ⟨⟨_, rfl⟩, rfl, fun e h => by simp at h⟩

/-- Witness for C7 at a concrete failing sync call. -/
theorem claim7_manual_refresh_sync_then_fetch_witness :
    (∃ tl, (handleManualRefresh (Except.error ReqError.other) okEnv
        ReqError.other 5 initialState).2 = Event.postSync :: tl) ∧
    (handleManualRefresh (Except.error ReqError.other) okEnv
        ReqError.other 5 initialState).1.refreshing = false ∧
    Event.fetchStart ∉ (handleManualRefresh (Except.error ReqError.other)
        okEnv ReqError.other 5 initialState).2 :=
  ⟨(claim7_manual_refresh_sync_then_fetch (Except.error ReqError.other)
      okEnv ReqError.other 5 initialState).1,
   (claim7_manual_refresh_sync_then_fetch (Except.error ReqError.other)
      okEnv ReqError.other 5 initialState).2.1,
   (claim7_manual_refresh_sync_then_fetch (Except.error ReqError.other)
      okEnv ReqError.other 5 initialState).2.2 ReqError.other rfl⟩

/-- A fetch cycle never schedules a guard clear: `setTimeout` occurs only
in the failure path of `setupWebhooksAutomatically`. -/
theorem scheduleGuardClear_notin_fetchAllData (silent : Bool)
    (env : FetchEnv) (winner : ReqError) (now : Nat) (s : DashState)
    (d : Nat) :
    Event.scheduleGuardClear d ∉ (fetchAllData silent env winner now s).events := by
  rcases env with ⟨ru, rov, rod, rtc, rro, rw⟩
  rcases ru with e1 | v1 <;> rcases rov with e2 | v2 <;>
    rcases rod with e3 | v3 <;> rcases rtc with e4 | v4 <;>
    rcases rro with e5 | v5 <;> cases silent <;>
    cases h : isAuthErr winner <;>
    simp [fetchAllData, h]

/-- C2. A failed remediation attempt at time `t0` leaves the guard set
and schedules its clear 30000 ms later. A second attempt initiated at any
time `t` before `t0 + 30000` (after delivery of due timers) is a no-op;
an attempt at `t ≥ t0 + 30000` proceeds and issues the
`POST /auth/setup-webhooks` request. A successful attempt instead clears
the guard immediately and schedules no delayed clear. -/
theorem claim2_failure_cooldown (env : FetchEnv) (winner : ReqError)
    (t0 : Nat) (s : DashState) (err : ReqError)
    (h : s.webhookSetupAttempted = false) :
    (setupWebhooksAutomatically (Except.error err) env winner t0
        s).state.webhookSetupAttempted = true ∧
    Event.scheduleGuardClear 30000 ∈
      (setupWebhooksAutomatically (Except.error err) env winner t0 s).events ∧
    (∀ t, t < t0 + 30000 → ∀ (p2 : Except ReqError Unit) (env2 : FetchEnv)
        (w2 : ReqError),
      setupWebhooksAutomatically p2 env2 w2 t
          (applyGuardTimer (some (t0 + 30000)) t
            (setupWebhooksAutomatically (Except.error err) env winner t0
              s).state)
        = ⟨applyGuardTimer (some (t0 + 30000)) t
            (setupWebhooksAutomatically (Except.error err) env winner t0
              s).state, []⟩) ∧
    (∀ t, t0 + 30000 ≤ t → ∀ (p2 : Except ReqError Unit) (env2 : FetchEnv)
        (w2 : ReqError),
      Event.postSetupWebhooks ∈
        (setupWebhooksAutomatically p2 env2 w2 t
          (applyGuardTimer (some (t0 + 30000)) t
            (setupWebhooksAutomatically (Except.error err) env winner t0
              s).state)).events) ∧
    ((setupWebhooksAutomatically (Except.ok ()) env winner t0
        s).state.webhookSetupAttempted = false ∧
     Event.scheduleGuardClear 30000 ∉
       (setupWebhooksAutomatically (Except.ok ()) env winner t0 s).events) := by
  have hfail : setupWebhooksAutomatically (Except.error err) env winner t0 s
      = ⟨{ s with webhookSetupAttempted := true },
         [Event.postSetupWebhooks, Event.scheduleGuardClear 30000]⟩ := by
    simp [setupWebhooksAutomatically, h]
  refine ⟨by rw [hfail], by rw [hfail]; simp, ?_, ?_, ?_, ?_⟩
  · intro t ht p2 env2 w2
    rw [hfail]
    simp [applyGuardTimer, Nat.not_le.mpr ht, setupWebhooksAutomatically]
  · intro t ht p2 env2 w2
    rw [hfail]
    cases p2 <;> simp [applyGuardTimer, ht, setupWebhooksAutomatically]
  · simp [setupWebhooksAutomatically, h]
  · simp only [setupWebhooksAutomatically, h, Bool.false_eq_true,
      if_false, List.mem_cons]
    push_neg
    exact ⟨by simp, scheduleGuardClear_notin_fetchAllData _ _ _ _ _ _⟩

/-- Witness for C2 at a concrete failed attempt at time 1000 from the
initial state. -/
theorem claim2_failure_cooldown_witness :
    initialState.webhookSetupAttempted = false ∧
    (setupWebhooksAutomatically (Except.error ReqError.other) okEnv
        ReqError.other 1000 initialState).state.webhookSetupAttempted
      = true ∧
    setupWebhooksAutomatically (Except.ok ()) okEnv ReqError.other 5000
        (applyGuardTimer (some 31000) 5000
          (setupWebhooksAutomatically (Except.error ReqError.other) okEnv
            ReqError.other 1000 initialState).state)
      = ⟨applyGuardTimer (some 31000) 5000
          (setupWebhooksAutomatically (Except.error ReqError.other) okEnv
            ReqError.other 1000 initialState).state, []⟩ ∧
    Event.postSetupWebhooks ∈
      (setupWebhooksAutomatically (Except.ok ()) okEnv ReqError.other 40000
        (applyGuardTimer (some 31000) 40000
          (setupWebhooksAutomatically (Except.error ReqError.other) okEnv
            ReqError.other 1000 initialState).state)).events :=
  ⟨rfl,
   (claim2_failure_cooldown okEnv ReqError.other 1000 initialState
     ReqError.other rfl).1,
   (claim2_failure_cooldown okEnv ReqError.other 1000 initialState
     ReqError.other rfl).2.2.1 5000 (by decide) (Except.ok ()) okEnv
     ReqError.other,
   (claim2_failure_cooldown okEnv ReqError.other 1000 initialState
     ReqError.other rfl).2.2.2.1 40000 (by decide) (Except.ok ()) okEnv
     ReqError.other⟩

/-- Well-formedness of the polling half: every registered or queued timer
id, and the id stored in the component's ref, was issued in the past (is
below `nextId`). -/
def refBound (r : Option Nat) (n : Nat) : Bool :=
  match r with
  | some id => decide (id < n)
  | none => true

/-- Well-formedness of the polling state. -/
def PollWF (p : PollState) : Prop :=
  (∀ i ∈ p.sys.active, i < p.sys.nextId) ∧
  (∀ i ∈ p.sys.due, i < p.sys.nextId) ∧
  refBound p.pollingIntervalRef p.sys.nextId = true

/-- C8. Teardown deregisters the stored polling interval and discards any
queued-but-not-yet-run fire of it, so no timer-driven fetch of that
interval occurs after teardown even if its fire time had already passed;
and re-initialization cancels the prior interval before registering a
fresh one, which is then registered exactly once — duplicate overlapping
timers never exist. -/
theorem claim8_teardown_cancels_polling (p : PollState) (id : Nat)
    (hwf : PollWF p) (hid : p.pollingIntervalRef = some id) :
    (id ∉ (teardownEffect p).sys.active ∧
     id ∉ timerFetches (teardownEffect p).sys) ∧
    (id ∉ (initializeEffect p).sys.active ∧
     id ∉ timerFetches (initializeEffect p).sys ∧
     ∃ nid, (initializeEffect p).pollingIntervalRef = some nid ∧ nid ≠ id ∧
       List.count nid (initializeEffect p).sys.active = 1) := by
  obtain ⟨hact, hdue, href⟩ := hwf
  have hlt : id < p.sys.nextId := by
    rw [hid] at href
    simpa [refBound] using href
  have hne : p.sys.nextId ≠ id := fun hEq => absurd (hEq ▸ hlt) (lt_irrefl _)
  refine ⟨⟨?_, ?_⟩, ?_, ?_, p.sys.nextId, ?_, hne, ?_⟩
  · simp [teardownEffect, clearPriorInterval, hid, clearIntervalSys,
      List.mem_filter]
  · simp [teardownEffect, clearPriorInterval, hid, clearIntervalSys,
      timerFetches, List.mem_filter]
  · simp [initializeEffect, clearPriorInterval, hid, clearIntervalSys,
      setIntervalSys, List.mem_append, List.mem_filter, hne.symm]
  · simp [initializeEffect, clearPriorInterval, hid, clearIntervalSys,
      setIntervalSys, timerFetches, List.mem_filter]
  · simp [initializeEffect, clearPriorInterval, hid, clearIntervalSys,
      setIntervalSys]
  · show List.count p.sys.nextId (initializeEffect p).sys.active = 1
    have hsplit : (initializeEffect p).sys.active
        = (clearIntervalSys p.sys id).active ++ [p.sys.nextId] := by
      simp [initializeEffect, clearPriorInterval, hid, setIntervalSys,
        clearIntervalSys]
    have h0 : List.count p.sys.nextId (clearIntervalSys p.sys id).active
        = 0 :=
      List.count_eq_zero.mpr (fun hm =>
        absurd (hact _ (List.mem_of_mem_filter hm)) (lt_irrefl _))
    rw [hsplit, List.count_append, h0]
    simp

/-- Witness for C8: a polling state holding interval id 1 (already due)
in a timer system that has issued ids 0 and 1. -/
theorem claim8_teardown_cancels_polling_witness :
    PollWF ⟨⟨2, [1], [1]⟩, some 1⟩ ∧
    (⟨⟨2, [1], [1]⟩, some 1⟩ : PollState).pollingIntervalRef = some 1 ∧
    ((1 ∉ (teardownEffect ⟨⟨2, [1], [1]⟩, some 1⟩).sys.active ∧
      1 ∉ timerFetches (teardownEffect ⟨⟨2, [1], [1]⟩, some 1⟩).sys) ∧
     (1 ∉ (initializeEffect ⟨⟨2, [1], [1]⟩, some 1⟩).sys.active ∧
      1 ∉ timerFetches (initializeEffect ⟨⟨2, [1], [1]⟩, some 1⟩).sys ∧
      ∃ nid, (initializeEffect ⟨⟨2, [1], [1]⟩, some 1⟩).pollingIntervalRef
          = some nid ∧ nid ≠ 1 ∧
        List.count nid (initializeEffect ⟨⟨2, [1], [1]⟩,
          some 1⟩).sys.active = 1)) :=
  ⟨⟨by decide, by decide, by decide⟩, rfl,
   claim8_teardown_cancels_polling ⟨⟨2, [1], [1]⟩, some 1⟩ 1
     ⟨by decide, by decide, by decide⟩ rfl⟩

/-- Evaluation of the numeric parser on the literal "0". -/
theorem jsNumber_lit_zero : jsNumber "0" = some 0 := by
  simp +decide [jsNumber, jsTrim, parseUnsigned, digitsToNat, isDigitCh,
    isSpaceCh, List.dropWhile, List.takeWhile, List.foldl]

/-- Evaluation of the numeric parser on the literal "4". -/
theorem jsNumber_lit_four : jsNumber "4" = some 4 := by
  simp +decide [jsNumber, jsTrim, parseUnsigned, digitsToNat, isDigitCh,
    isSpaceCh, List.dropWhile, List.takeWhile, List.foldl]

/-- Evaluation of the numeric parser on the literal "1000". -/
theorem jsNumber_lit_thousand : jsNumber "1000" = some 1000 := by
  simp +decide [jsNumber, jsTrim, parseUnsigned, digitsToNat, isDigitCh,
    isSpaceCh, List.dropWhile, List.takeWhile, List.foldl]

/-- C9. The average-order-value computation is safe: whenever
`total_orders` is the string "0" — and in general whenever its numeric
value is not greater than zero, or the overview is absent — the result is
`0` with no division performed; and for
`{total_revenue: "1000", total_orders: "4"}` the result is `250`. -/
theorem claim9_avg_order_value_safe :
    (∀ o : Overview, o.total_orders = "0" →
      avgOrderValue (some o) = some 0) ∧
    (∀ (o : Overview) (q : ℚ), jsNumber o.total_orders = some q → q ≤ 0 →
      avgOrderValue (some o) = some 0) ∧
    avgOrderValue none = some 0 ∧
    (∀ o : Overview, o.total_orders = "4" → o.total_revenue = "1000" →
      avgOrderValue (some o) = some 250) := by
  refine ⟨?_, ?_, rfl, ?_⟩
  · intro o h
    simp [avgOrderValue, h, jsNumber_lit_zero]
  · intro o q hq hle
    simp [avgOrderValue, hq, not_lt.mpr hle]
  · intro o h4 h1000
    simp only [avgOrderValue, h4, h1000, jsNumber_lit_four,
      jsNumber_lit_thousand]
    norm_num [jsRound]

/-- Witness for C9 at the two concrete overviews of the spec's
scenarios. -/
theorem claim9_avg_order_value_safe_witness :
    (⟨"5", "0", "1000", "USD"⟩ : Overview).total_orders = "0" ∧
    avgOrderValue (some ⟨"5", "0", "1000", "USD"⟩) = some 0 ∧
    sampleOverview.total_orders = "4" ∧
    sampleOverview.total_revenue = "1000" ∧
    avgOrderValue (some sampleOverview) = some 250 :=
  ⟨rfl, claim9_avg_order_value_safe.1 ⟨"5", "0", "1000", "USD"⟩ rfl,
   rfl, rfl, claim9_avg_order_value_safe.2.2.2 sampleOverview rfl rfl⟩
